import Mathlib

/-!
Verification of the ripple feature-flag engine.

The development shallowly embeds the two evaluation orchestrators of the
repository — the per-flag-record variant (`src/flags.ts`) and the
single-record structured variant — together with the platform primitives
they call: SHA-256 (Node `createHash('sha256')`), JavaScript `parseInt`
with radix 10, `String.prototype.split`, `URLSearchParams` over
`application/x-www-form-urlencoded` syntax, and JavaScript truthiness.
External effectful collaborators (DNS resolution, AES-GCM decryption,
`JSON.parse`) are modelled as oracles supplied through an environment
record, so theorems quantify over every outcome of those calls.
-/

/-! ## Bytes and UTF-8 encoding -/

/-- UTF-8 encoding of a single character, as byte values. -/
def utf8EncodeChar (c : Char) : List Nat :=
  let n := c.toNat
  if n < 0x80 then [n]
  else if n < 0x800 then
    [0xC0 ||| (n >>> 6), 0x80 ||| (n &&& 0x3F)]
  else if n < 0x10000 then
    [0xE0 ||| (n >>> 12), 0x80 ||| ((n >>> 6) &&& 0x3F), 0x80 ||| (n &&& 0x3F)]
  else
    [0xF0 ||| (n >>> 18), 0x80 ||| ((n >>> 12) &&& 0x3F),
     0x80 ||| ((n >>> 6) &&& 0x3F), 0x80 ||| (n &&& 0x3F)]

/-- UTF-8 encoding of a string, as byte values. -/
def utf8Bytes (s : String) : List Nat :=
  (s.data.map utf8EncodeChar).flatten

/-- The UTF-16 code units of a string: one unit for a BMP code point, a
surrogate pair for an astral one. -/
def utf16Units (s : String) : List Nat :=
  (s.data.map (fun c =>
    let n := c.toNat
    if n < 65536 then [n]
    else [0xD800 + (n - 65536) / 1024, 0xDC00 + (n - 65536) % 1024])).flatten

/-- JavaScript `s.length`: the number of UTF-16 code units, not code
points. -/
def utf16Length (s : String) : Nat := (utf16Units s).length

/-! ## SHA-256 (the digest algorithm behind Node `createHash('sha256')`) -/

/-- 2^32, the word modulus of SHA-256 arithmetic. -/
def M32 : Nat := 4294967296

/-- Right rotation of a 32-bit word. -/
def rotr32 (x n : Nat) : Nat :=
  (x >>> n) ||| ((x % (1 <<< n)) <<< (32 - n))

/-- SHA-256 small sigma 0. -/
def ssig0 (x : Nat) : Nat := (rotr32 x 7) ^^^ (rotr32 x 18) ^^^ (x >>> 3)

/-- SHA-256 small sigma 1. -/
def ssig1 (x : Nat) : Nat := (rotr32 x 17) ^^^ (rotr32 x 19) ^^^ (x >>> 10)

/-- SHA-256 big Sigma 0. -/
def bsig0 (x : Nat) : Nat := (rotr32 x 2) ^^^ (rotr32 x 13) ^^^ (rotr32 x 22)

/-- SHA-256 big Sigma 1. -/
def bsig1 (x : Nat) : Nat := (rotr32 x 6) ^^^ (rotr32 x 11) ^^^ (rotr32 x 25)

/-- The 64 SHA-256 round constants (FIPS 180-4 §4.2.2, the fractional
parts of the cube roots of the first 64 primes, written in decimal). -/
def sha256K : List Nat :=
  [1116352408, 1899447441, 3049323471, 3921009573, 961987163, 1508970993,
   2453635748, 2870763221, 3624381080, 310598401, 607225278, 1426881987,
   1925078388, 2162078206, 2614888103, 3248222580, 3835390401, 4022224774,
   264347078, 604807628, 770255983, 1249150122, 1555081692, 1996064986,
   2554220882, 2821834349, 2952996808, 3210313671, 3336571891, 3584528711,
   113926993, 338241895, 666307205, 773529912, 1294757372, 1396182291,
   1695183700, 1986661051, 2177026350, 2456956037, 2730485921, 2820302411,
   3259730800, 3345764771, 3516065817, 3600352804, 4094571909, 275423344,
   430227734, 506948616, 659060556, 883997877, 958139571, 1322822218,
   1537002063, 1747873779, 1955562222, 2024104815, 2227730452, 2361852424,
   2428436474, 2756734187, 3204031479, 3329325298]

/-- The SHA-256 initial hash value (FIPS 180-4 §5.3.3, in decimal). -/
def sha256H0 : List Nat :=
  [1779033703, 3144134277, 1013904242, 2773480762,
   1359893119, 2600822924, 528734635, 1541459225]

/-- Big-endian byte serialization of a value into `n` bytes. -/
def beBytes : Nat → Nat → List Nat
  | 0, _ => []
  | n + 1, v => beBytes n (v / 256) ++ [v % 256]

/-- Group a byte list into 32-bit big-endian words. -/
def bytesToWords : List Nat → List Nat
  | a :: b :: c :: d :: rest =>
      (((a * 256 + b) * 256 + c) * 256 + d) :: bytesToWords rest
  | _ => []

/-- SHA-256 message padding: append `0x80`, zero bytes to 56 mod 64, then
the bit length as 8 big-endian bytes. -/
def sha256Pad (msg : List Nat) : List Nat :=
  let L := msg.length
  let k := (55 + 64 - (L % 64)) % 64
  msg ++ [0x80] ++ List.replicate k 0 ++ beBytes 8 (8 * L)

/-- Extend the 16 words of one block to the 64-entry message schedule. -/
def sha256Schedule (ws : List Nat) : List Nat :=
  (List.range 48).foldl
    (fun w _ =>
      let n := w.length
      let wt := (ssig1 (w.getD (n - 2) 0) + w.getD (n - 7) 0
                 + ssig0 (w.getD (n - 15) 0) + w.getD (n - 16) 0) % M32
      w ++ [wt])
    ws

/-- One SHA-256 compression round. -/
def sha256Round (st : List Nat) (k w : Nat) : List Nat :=
  match st with
  | [a, b, c, d, e, f, g, h] =>
    let ch := (e &&& f) ^^^ ((e ^^^ 0xFFFFFFFF) &&& g)
    let maj := (a &&& b) ^^^ (a &&& c) ^^^ (b &&& c)
    let t1 := (h + bsig1 e + ch + k + w) % M32
    let t2 := (bsig0 a + maj) % M32
    [(t1 + t2) % M32, a, b, c, (d + t1) % M32, e, f, g]
  | other => other

/-- Compress one 16-word block into the running hash state. -/
def sha256Compress (h : List Nat) (block : List Nat) : List Nat :=
  let final := ((sha256K.zip (sha256Schedule block)).foldl
    (fun st p => sha256Round st p.1 p.2) h)
  List.zipWith (fun x y => (x + y) % M32) h final

/-- Split a word list into 16-word blocks; the fuel bounds the number of
blocks and is structurally decreasing so the kernel can evaluate it. -/
def chunks16Fuel : Nat → List Nat → List (List Nat)
  | 0, _ => []
  | _, [] => []
  | fuel + 1, ws => (ws.take 16) :: chunks16Fuel fuel (ws.drop 16)

/-- Split a word list into 16-word blocks. -/
def chunks16 (ws : List Nat) : List (List Nat) :=
  chunks16Fuel ws.length ws

/-- The SHA-256 digest of a byte list, as 32 byte values. -/
def sha256 (msg : List Nat) : List Nat :=
  let blocks := chunks16 (bytesToWords (sha256Pad msg))
  ((blocks.foldl sha256Compress sha256H0).map (beBytes 4)).flatten

/-- FIPS 180-4 test vector: the digest of "abc"
(ba7816bf 8f01cfea 414140de 5dae2223 b00361a3 96177a9c b410ff61 f20015ad),
written as decimal byte values. -/
theorem sha256_vector_abc :
    sha256 (utf8Bytes "abc") =
      [186, 120, 22, 191, 143, 1, 207, 234,
       65, 65, 64, 222, 93, 174, 34, 35,
       176, 3, 97, 163, 150, 23, 122, 156,
       180, 16, 255, 97, 242, 0, 21, 173] := by decide

/-! ## The rollout bucketer (`_getUserRolloutValue`) -/

/-- Node `Buffer.readUInt32BE(0)`: the first four bytes as an unsigned
big-endian integer. -/
def readUInt32BE (bytes : List Nat) : Nat :=
  match bytes with
  | a :: b :: c :: d :: _ => ((a * 256 + b) * 256 + c) * 256 + d
  | _ => 0

/-- `_getUserRolloutValue` from the source: SHA-256 of the concatenation of
feature name and user id, first four digest bytes as a big-endian integer,
modulo 100, plus 1. -/
def _getUserRolloutValue (featureName userId : String) : Nat :=
  (readUInt32BE (sha256 (utf8Bytes (featureName ++ userId)))) % 100 + 1

/-! ## JavaScript string primitives used by the evaluator -/

/-- The whitespace characters JavaScript `parseInt` skips before parsing:
the ECMAScript WhiteSpace set (TAB, VT, FF, SP, NBSP, ZWNBSP and the
Unicode Space_Separator category U+1680, U+2000–U+200A, U+202F, U+205F,
U+3000) together with the LineTerminator set (LF, CR, LS, PS). -/
def isJsSpace (c : Char) : Bool :=
  c.toNat = 32 || c.toNat = 9 || c.toNat = 10 || c.toNat = 13 ||
  c.toNat = 11 || c.toNat = 12 || c.toNat = 0xA0 || c.toNat = 0xFEFF ||
  c.toNat = 0x1680 || c.toNat = 0x2000 || c.toNat = 0x2001 ||
  c.toNat = 0x2002 || c.toNat = 0x2003 || c.toNat = 0x2004 ||
  c.toNat = 0x2005 || c.toNat = 0x2006 || c.toNat = 0x2007 ||
  c.toNat = 0x2008 || c.toNat = 0x2009 || c.toNat = 0x200A ||
  c.toNat = 0x202F || c.toNat = 0x205F || c.toNat = 0x3000 ||
  c.toNat = 0x2028 || c.toNat = 0x2029

/-- An ASCII decimal digit. -/
def isDigitChar (c : Char) : Bool := 48 ≤ c.toNat && c.toNat ≤ 57

/-- The numeric value of a decimal digit list, most significant first. -/
def digitsToNat (ds : List Char) : Nat :=
  ds.foldl (fun a c => a * 10 + (c.toNat - 48)) 0

/-- The maximal leading run of decimal digits, as a number; `none` when
there is no leading digit. -/
def leadingNat (cs : List Char) : Option Nat :=
  let ds := cs.takeWhile isDigitChar
  if ds.isEmpty then none else some (digitsToNat ds)

/-- JavaScript `parseInt(s, 10)`: skip leading whitespace, read an optional
sign and then the maximal run of decimal digits, ignoring everything after
it; `none` models `NaN`. -/
def parseIntJS (s : String) : Option Int :=
  match s.data.dropWhile isJsSpace with
  | [] => none
  | c :: rest =>
    if c = '-' then (leadingNat rest).map (fun n => -(n : Int))
    else if c = '+' then (leadingNat rest).map (fun n => (n : Int))
    else (leadingNat (c :: rest)).map (fun n => (n : Int))

/-- `pre` is a prefix of `cs`, character by character. -/
def charsPrefix : List Char → List Char → Bool
  | [], _ => true
  | _ :: _, [] => false
  | a :: as, b :: bs => a = b && charsPrefix as bs

/-- JavaScript `s.startsWith(pre)`. -/
def strStartsWith (s pre : String) : Bool :=
  charsPrefix pre.data s.data

/-- JavaScript `String.prototype.split` with a one-character separator. -/
def splitOnChar (sep : Char) : List Char → List (List Char)
  | [] => [[]]
  | c :: rest =>
    if c = sep then [] :: splitOnChar sep rest
    else
      match splitOnChar sep rest with
      | g :: gs => (c :: g) :: gs
      | [] => [[c]]

/-- The percentage argument of a rollout rule as the source extracts it:
`parseInt(flagRule.split('=')[1], 10)`; `none` models `NaN` (also when the
split has no second component and `parseInt` receives `undefined`). -/
def rolloutArg (flagRule : String) : Option Int :=
  match (splitOnChar '=' flagRule.data).get? 1 with
  | none => none
  | some t => parseIntJS (String.mk t)

/-! ## Rules and their evaluation -/

/-- The typed rule a raw rule string denotes (the spec's `Rule` variant).
The `Rollout` payload carries the integer exactly as parsed; the source
never clamps it. -/
inductive Rule where
  | On : Rule
  | Off : Rule
  | Rollout : Int → Rule
deriving DecidableEq

/-- The rule a raw string denotes, read off the branch structure of the
evaluator: exact `"on"`, else a `rollout=` prefix with a parseable
percentage, else `Off`. -/
def interpret (raw : String) : Rule :=
  if raw = "on" then .On
  else if strStartsWith raw "rollout=" then
    match rolloutArg raw with
    | none => .Off
    | some n => .Rollout n
  else .Off

/-- Evaluation of a typed rule for a flag and an optional user, following
the source: `percentage >= 100` wins before the user check, and a missing
user — which in JavaScript includes the falsy empty string — disables a
partial rollout. -/
def evalRule (r : Rule) (featureName : String) (userId : Option String) : Bool :=
  match r with
  | .On => true
  | .Off => false
  | .Rollout p =>
    if 100 ≤ p then true
    else
      match userId with
      | none => false
      | some u =>
        if u = "" then false
        else ((_getUserRolloutValue featureName u : Int) ≤ p)

/-- The rule-evaluation tail of `isFlagEnabled`, translated directly from
the source (`flags.ts` lines 73–91 and the structured variant's identical
tail): exact `"on"`, the `rollout=` branch with `parseInt`, default
`false`. -/
def evalFlagRule (flagRule featureName : String) (userId : Option String) : Bool :=
  if flagRule = "on" then true
  else if strStartsWith flagRule "rollout=" then
    match rolloutArg flagRule with
    | none => false
    | some percentage =>
      if 100 ≤ percentage then true
      else
        match userId with
        | none => false
        | some u =>
          if u = "" then false
          else ((_getUserRolloutValue featureName u : Int) ≤ percentage)
  else false

/-- The evaluator factors through rule interpretation. -/
theorem evalFlagRule_eq_interpret (flagRule featureName : String)
    (userId : Option String) :
    evalFlagRule flagRule featureName userId =
      evalRule (interpret flagRule) featureName userId := by
  unfold evalFlagRule interpret evalRule
  by_cases h1 : flagRule = "on" <;> simp [h1]
  by_cases h2 : strStartsWith flagRule "rollout=" <;> simp [h2]
  cases rolloutArg flagRule <;> simp

/-- The spec's `clamp(n, lo, hi)`. -/
def clampInt (n lo hi : Int) : Int := if n < lo then lo else if hi < n then hi else n

/-- Two rules that evaluate identically in every context. -/
def ruleEquiv (r₁ r₂ : Rule) : Prop :=
  ∀ featureName userId, evalRule r₁ featureName userId = evalRule r₂ featureName userId

/-- The bucket always lies in [1, 100]. -/
theorem rolloutValue_range (featureName userId : String) :
    1 ≤ _getUserRolloutValue featureName userId ∧
      _getUserRolloutValue featureName userId ≤ 100 := by
  unfold _getUserRolloutValue
  omega

/-- An unclamped rollout percentage evaluates exactly like its clamped
form: at or above 100 both are always on, and below 0 both never match
because the bucket is at least 1. -/
theorem evalRule_rollout_clamp (n : Int) :
    ruleEquiv (.Rollout n) (.Rollout (clampInt n 0 100)) := by
  intro featureName userId
  cases userId with
  | none =>
    simp only [evalRule, clampInt]
    split_ifs <;> first | rfl | (exfalso; omega)
  | some u =>
    obtain ⟨hr1, hr2⟩ := rolloutValue_range featureName u
    simp only [evalRule, clampInt]
    split_ifs <;>
      first
      | rfl
      | (exfalso; omega)
      | (rw [decide_eq_decide]; omega)

/-! ## `URLSearchParams` over `application/x-www-form-urlencoded` syntax -/

/-- The value of an ASCII hex-digit byte. -/
def hexDigitVal (b : Nat) : Option Nat :=
  if 48 ≤ b ∧ b ≤ 57 then some (b - 48)
  else if 65 ≤ b ∧ b ≤ 70 then some (b - 55)
  else if 97 ≤ b ∧ b ≤ 102 then some (b - 87)
  else none

/-- Percent-decoding at the byte level, fuelled so that recursion is
structural (each step consumes at least one byte, so fuel equal to the
length is always enough): `%XX` with two hex digits becomes the byte
`XX`; a malformed escape is left as the literal `%`. -/
def percentDecodeFuel : Nat → List Nat → List Nat
  | 0, l => l
  | _, [] => []
  | fuel + 1, b :: rest =>
    if b = 0x25 then
      match rest with
      | c1 :: c2 :: rest2 =>
        match hexDigitVal c1, hexDigitVal c2 with
        | some h1, some h2 => (16 * h1 + h2) :: percentDecodeFuel fuel rest2
        | _, _ => b :: percentDecodeFuel fuel rest
      | _ => b :: percentDecodeFuel fuel rest
    else b :: percentDecodeFuel fuel rest

/-- Percent-decoding at the byte level. -/
def percentDecodeBytes (bs : List Nat) : List Nat :=
  percentDecodeFuel bs.length bs

/-- The Unicode replacement character. -/
def replChar : Char := Char.ofNat 0xFFFD

/-- Whether a byte is a UTF-8 continuation byte. -/
def isCont (b : Nat) : Bool := 0x80 ≤ b && b < 0xC0

/-- Whether a byte is acceptable as the second byte of a sequence led by
`b` (the WHATWG decoder's narrowed window that excludes overlong forms,
surrogates and code points past U+10FFFF). -/
def isCont2 (b b2 : Nat) : Bool :=
  let lo := if b = 0xE0 then 0xA0 else if b = 0xF0 then 0x90 else 0x80
  let hi := if b = 0xED then 0xA0 else if b = 0xF4 then 0x90 else 0xC0
  lo ≤ b2 && b2 < hi

/-- UTF-8 decoding with replacement, fuelled so that recursion is
structural, mirroring the WHATWG decoder: well-formed sequences decode to
their code point; on a malformed byte the pending sequence becomes one
U+FFFD and decoding resumes at the byte that failed (a truncated sequence
at the end of input is a single U+FFFD). -/
def utf8DecodeFuel : Nat → List Nat → List Char
  | 0, _ => []
  | _, [] => []
  | fuel + 1, b :: rest =>
    if b < 0x80 then Char.ofNat b :: utf8DecodeFuel fuel rest
    else if 0xC2 ≤ b && b < 0xE0 then
      match rest with
      | b2 :: rest2 =>
        if isCont b2 then
          Char.ofNat ((b - 0xC0) * 64 + (b2 - 0x80)) :: utf8DecodeFuel fuel rest2
        else replChar :: utf8DecodeFuel fuel rest
      | [] => [replChar]
    else if 0xE0 ≤ b && b < 0xF0 then
      match rest with
      | b2 :: b3 :: rest3 =>
        if isCont2 b b2 then
          if isCont b3 then
            Char.ofNat ((b - 0xE0) * 4096 + (b2 - 0x80) * 64 + (b3 - 0x80)) ::
              utf8DecodeFuel fuel rest3
          else replChar :: utf8DecodeFuel fuel (b3 :: rest3)
        else replChar :: utf8DecodeFuel fuel rest
      | [b2] =>
        if isCont2 b b2 then [replChar]
        else replChar :: utf8DecodeFuel fuel [b2]
      | [] => [replChar]
    else if 0xF0 ≤ b && b < 0xF5 then
      match rest with
      | b2 :: b3 :: b4 :: rest4 =>
        if isCont2 b b2 then
          if isCont b3 then
            if isCont b4 then
              Char.ofNat ((b - 0xF0) * 262144 + (b2 - 0x80) * 4096 +
                  (b3 - 0x80) * 64 + (b4 - 0x80)) :: utf8DecodeFuel fuel rest4
            else replChar :: utf8DecodeFuel fuel (b4 :: rest4)
          else replChar :: utf8DecodeFuel fuel (b3 :: b4 :: rest4)
        else replChar :: utf8DecodeFuel fuel rest
      | [b2, b3] =>
        if isCont2 b b2 then
          if isCont b3 then [replChar]
          else replChar :: utf8DecodeFuel fuel [b3]
        else replChar :: utf8DecodeFuel fuel [b2, b3]
      | [b2] =>
        if isCont2 b b2 then [replChar]
        else replChar :: utf8DecodeFuel fuel [b2]
      | [] => [replChar]
    else replChar :: utf8DecodeFuel fuel rest

/-- UTF-8 decoding with replacement. -/
def utf8DecodeReplace (bs : List Nat) : List Char :=
  utf8DecodeFuel bs.length bs

/-- Split a byte list on a separator byte. -/
def splitBytesOn (sep : Nat) : List Nat → List (List Nat)
  | [] => [[]]
  | b :: rest =>
    if b = sep then [] :: splitBytesOn sep rest
    else
      match splitBytesOn sep rest with
      | g :: gs => (b :: g) :: gs
      | [] => [[b]]

/-- Decode one name or value of a pair: `+` becomes space, then percent
escapes are decoded, then the bytes are read back as UTF-8. -/
def formDecodePart (bs : List Nat) : String :=
  String.mk (utf8DecodeReplace (percentDecodeBytes
    (bs.map (fun b => if b = 0x2B then 0x20 else b))))

/-- Split one `name=value` sequence at its first `=` (a sequence without
`=` is all name, with an empty value). -/
def splitFirstEq (bs : List Nat) : List Nat × List Nat :=
  let name := bs.takeWhile (fun b => b ≠ 0x3D)
  match bs.dropWhile (fun b => b ≠ 0x3D) with
  | _ :: value => (name, value)
  | [] => (name, [])

/-- The `application/x-www-form-urlencoded` parser behind
`new URLSearchParams(init)`: strip one leading `?`, encode to bytes, split
on `&`, drop empty sequences, split each at the first `=` and decode both
halves. -/
def urlSearchParamsList (init : String) : List (String × String) :=
  let s := if strStartsWith init "?" then String.mk (init.data.drop 1) else init
  ((splitBytesOn 0x26 (utf8Bytes s)).filter (fun g => ¬ g.isEmpty)).map
    (fun g =>
      let p := splitFirstEq g
      (formDecodePart p.1, formDecodePart p.2))

/-- `URLSearchParams.get(name)`: the value of the first pair with the
given name, or `null`. -/
def urlSearchParamsGet (init name : String) : Option String :=
  ((urlSearchParamsList init).find? (fun p => p.1 = name)).map Prod.snd

/-- The raw rule string `flags.ts` extracts from the decrypted text:
`new URLSearchParams(decryptedFlags.replace(/;/g, '&')).get(featureName)
|| 'off'` — the JavaScript `||` also turns an empty-string value into
`'off'`. -/
def extractFlagRule (decryptedFlags featureName : String) : String :=
  match urlSearchParamsGet
      (String.mk (decryptedFlags.data.map (fun c => if c = ';' then '&' else c)))
      featureName with
  | none => "off"
  | some v => if v = "" then "off" else v

/-! ## The per-flag orchestrator (`flags.ts`) -/

/-- `DEFAULT_CACHE_TTL_MS` in `flags.ts` (60 seconds). -/
def DEFAULT_CACHE_TTL_MS : Int := 60 * 1000

/-- `FAILURE_CACHE_TTL_MS` in `flags.ts`: the initializer is 60 seconds,
although the adjacent comment in the source says 10. -/
def FAILURE_CACHE_TTL_MS : Int := 60 * 1000

/-- One entry of the per-flag cache: the raw rule string the running code
stores (the declared entry type says `boolean`, but the running code
assigns the rule string) and the expiry timestamp. -/
structure FlagCacheEntry where
  value : String
  expires : Int
deriving DecidableEq

/-- The per-flag cache, keyed by the queried domain. -/
abbrev FlagCache := List (String × FlagCacheEntry)

/-- `Map.get`: the entry under a key. -/
def cacheGet {E : Type} (c : List (String × E)) (k : String) : Option E :=
  (c.find? (fun p => p.1 = k)).map Prod.snd

/-- Remove every binding of a key. -/
def cacheErase {E : Type} (c : List (String × E)) (k : String) : List (String × E) :=
  c.filter (fun p => ¬ p.1 = k)

/-- `Map.set`: bind a key, replacing any previous binding. -/
def cacheSet {E : Type} (c : List (String × E)) (k : String) (v : E) :
    List (String × E) :=
  (k, v) :: cacheErase c k

/-- The environment of one `flags.ts` evaluation: the secret from the
process environment and oracles giving the outcome of the two effectful
collaborators, `dns.resolveTxt` (for the one domain this call queries) and
`decrypt` (AES-256-GCM, fallible). -/
structure FlagEnv where
  secret : Option String
  dnsResult : Except Unit (List (List String))
  decryptResult : String → String → Except Unit String

/-- JavaScript falsiness of `process.env.X`: absent or the empty string. -/
def jsFalsyStr : Option String → Bool
  | none => true
  | some s => s = ""

/-- The observable outcome of one `flags.ts` evaluation: the boolean
result, the cache afterwards, and whether `dns.resolveTxt` was invoked. -/
structure FlagRun where
  result : Bool
  cache : FlagCache
  resolved : Bool
deriving DecidableEq

/-- The cache-miss path of `flags.ts`: bail out on a falsy secret (no
cache write), otherwise resolve, join the fragments, reject an empty
record, decrypt and parse — any thrown error is caught and cached as
`'off'` with the failure TTL — and on success cache the extracted rule
with the default TTL and evaluate it. -/
def flagMissPath (env : FlagEnv) (now : Int) (cache : FlagCache)
    (domain featureName : String) (userId : Option String) : FlagRun :=
  if jsFalsyStr env.secret then ⟨false, cache, false⟩
  else
    match env.dnsResult with
    | .error _ => ⟨false, cacheSet cache domain ⟨"off", now + FAILURE_CACHE_TTL_MS⟩, true⟩
    | .ok records =>
      let encryptedValue := String.join records.flatten
      if encryptedValue = "" then
        ⟨false, cacheSet cache domain ⟨"off", now + FAILURE_CACHE_TTL_MS⟩, true⟩
      else
        match env.decryptResult encryptedValue ((env.secret).getD "") with
        | .error _ =>
          ⟨false, cacheSet cache domain ⟨"off", now + FAILURE_CACHE_TTL_MS⟩, true⟩
        | .ok decryptedFlags =>
          let flagRule := extractFlagRule decryptedFlags featureName
          ⟨evalFlagRule flagRule featureName userId,
           cacheSet cache domain ⟨flagRule, now + DEFAULT_CACHE_TTL_MS⟩, true⟩

/-- `isFlagEnabled` from `flags.ts`: serve a non-expired cache entry for
`featureName.baseDomain`, otherwise run the miss path. -/
def isFlagEnabled (env : FlagEnv) (now : Int) (cache : FlagCache)
    (featureName baseDomain : String) (userId : Option String) : FlagRun :=
  let domain := featureName ++ "." ++ baseDomain
  match cacheGet cache domain with
  | some entry =>
    if now < entry.expires then
      ⟨evalFlagRule entry.value featureName userId, cache, false⟩
    else flagMissPath env now cache domain featureName userId
  | none => flagMissPath env now cache domain featureName userId

/-! ## The single-record structured orchestrator (the `ripple` variant) -/

namespace Ripple

/-- A JSON value as `JSON.parse` can produce it. Numbers are modelled as
integers; no claim computes with a numeric payload, only with its
string-or-not shape. -/
inductive Json where
  | null : Json
  | bool : Bool → Json
  | num : Int → Json
  | str : String → Json
  | arr : List Json → Json
  | obj : List (String × Json) → Json

/-- `CONFIG_RECORD_NAME`: the single TXT record is `ripple.<baseDomain>`. -/
def CONFIG_RECORD_NAME : String := "ripple"

/-- `DEFAULT_CACHE_TTL_MS` of the structured variant (60 seconds). -/
def DEFAULT_CACHE_TTL_MS : Int := 60 * 1000

/-- `FAILURE_CACHE_TTL_MS` of the structured variant (10 seconds). -/
def FAILURE_CACHE_TTL_MS : Int := 10 * 1000

/-- A canonical JavaScript array index: all digits with no leading zero. -/
def canonicalIndex (s : String) : Option Nat :=
  if s = "0" then some 0
  else
    match s.data with
    | [] => none
    | c :: _ =>
      if c ≠ '0' && s.data.all isDigitChar then some (digitsToNat s.data)
      else none

/-- The property names every JavaScript object inherits from
`Object.prototype`; looking one up on a plain object (such as a parsed
JSON object) yields a truthy function, or for `__proto__` a truthy
object. -/
def objectProtoNames : List String :=
  ["constructor", "hasOwnProperty", "isPrototypeOf", "propertyIsEnumerable",
   "toLocaleString", "toString", "valueOf", "__proto__",
   "__defineGetter__", "__defineSetter__", "__lookupGetter__",
   "__lookupSetter__"]

/-- The method names of `Array.prototype` (through ES2023; the
engine-version-dependent tail of this list is exercised by no theorem,
which only evaluate object bases). -/
def arrayProtoNames : List String :=
  ["at", "concat", "copyWithin", "entries", "every", "fill", "filter",
   "find", "findIndex", "findLast", "findLastIndex", "flat", "flatMap",
   "forEach", "includes", "indexOf", "join", "keys", "lastIndexOf", "map",
   "pop", "push", "reduce", "reduceRight", "reverse", "shift", "slice",
   "some", "sort", "splice", "toReversed", "toSorted", "toSpliced",
   "unshift", "values", "with"]

/-- The method names of `String.prototype` (through ES2023 plus the Annex
B HTML helpers; same caveat as `arrayProtoNames`). -/
def stringProtoNames : List String :=
  ["at", "charAt", "charCodeAt", "codePointAt", "concat", "endsWith",
   "includes", "indexOf", "lastIndexOf", "localeCompare", "match",
   "matchAll", "normalize", "padEnd", "padStart", "repeat", "replace",
   "replaceAll", "search", "slice", "split", "startsWith", "substr",
   "substring", "toLocaleLowerCase", "toLocaleUpperCase", "toLowerCase",
   "toUpperCase", "trim", "trimEnd", "trimStart", "anchor", "big", "blink",
   "bold", "fixed", "fontcolor", "fontsize", "italics", "link", "small",
   "strike", "sub", "sup"]

/-- The method names of `Number.prototype`. -/
def numberProtoNames : List String :=
  ["toExponential", "toFixed", "toPrecision"]

/-- The outcome of a JavaScript member access `base[key]`. -/
inductive JsAccess where
  | throw : JsAccess
  | undefined : JsAccess
  | val : Json → JsAccess
  | builtin : JsAccess
  | lone : JsAccess

/-- JavaScript member access `config[featureName]` on a parsed JSON
value: `null[key]` throws a `TypeError`; objects look up an own field and
then `Object.prototype`; arrays and strings expose `length`, their
canonical indices (strings index by UTF-16 code unit, which can be a lone
surrogate half) and their prototype methods; numbers and booleans expose
only prototype methods. Every inherited prototype member is a truthy
non-string function or object, collapsed into `.builtin`. -/
def jsMember (j : Json) (key : String) : JsAccess :=
  match j with
  | .null => .throw
  | .bool _ =>
    if objectProtoNames.contains key then .builtin else .undefined
  | .num _ =>
    if numberProtoNames.contains key || objectProtoNames.contains key then
      .builtin
    else .undefined
  | .str s =>
    if key = "length" then .val (.num (utf16Length s))
    else
      match canonicalIndex key with
      | some i =>
        match (utf16Units s).get? i with
        | some u =>
          if (0xD800 ≤ u && u < 0xE000) then .lone
          else .val (.str (String.mk [Char.ofNat u]))
        | none => .undefined
      | none =>
        if stringProtoNames.contains key || objectProtoNames.contains key then
          .builtin
        else .undefined
  | .arr elems =>
    if key = "length" then .val (.num elems.length)
    else
      match canonicalIndex key with
      | some i =>
        match elems.get? i with
        | some v => .val v
        | none => .undefined
      | none =>
        if arrayProtoNames.contains key || objectProtoNames.contains key then
          .builtin
        else .undefined
  | .obj fields =>
    match (fields.find? (fun p => p.1 = key)).map Prod.snd with
    | some v => .val v
    | none => if objectProtoNames.contains key then .builtin else .undefined

/-- JavaScript falsiness of a JSON value. -/
def jsonFalsy : Json → Bool
  | .null => true
  | .bool b => !b
  | .num n => n = 0
  | .str s => s = ""
  | _ => false

/-- The rule value `config[featureName] || 'off'` produces: the access
itself can throw (null base); `undefined` and falsy values default to
`'off'`; otherwise the rule is a string, a truthy non-string JSON value,
an inherited prototype member, or a lone-surrogate one-unit string. -/
inductive JsRule where
  | throw : JsRule
  | str : String → JsRule
  | nonstr : Json → JsRule
  | builtin : JsRule
  | lone : JsRule

/-- `config[featureName] || 'off'`. -/
def lookupFlagRule (config : Json) (featureName : String) : JsRule :=
  match jsMember config featureName with
  | .throw => .throw
  | .undefined => .str "off"
  | .builtin => .builtin
  | .lone => .lone
  | .val v =>
    if jsonFalsy v then .str "off"
    else
      match v with
      | .str s => .str s
      | other => .nonstr other

/-- The rule-evaluation tail of the structured `isFlagEnabled`. A string
rule evaluates like the per-flag evaluator; on a truthy non-string rule —
a JSON number/array/object or an inherited prototype function or object —
the `flagRule.startsWith('rollout=')` call throws a `TypeError` that
nothing catches, modelled as `.error`; a lone-surrogate one-unit string
is a string of length 1, so it is not `'on'`, has no `rollout=` prefix,
and falls through to `false`. -/
def evalFlagRuleJson (flagRule : JsRule) (featureName : String)
    (userId : Option String) : Except Unit Bool :=
  match flagRule with
  | .throw => .error ()
  | .str s => .ok (evalFlagRule s featureName userId)
  | .nonstr _ => .error ()
  | .builtin => .error ()
  | .lone => .ok false

/-- One entry of the configuration cache: the parsed value `JSON.parse`
produced (the declared type says `Record<string, string>`, but nothing
validates that) and the expiry timestamp. -/
structure ConfigEntry where
  value : Json
  expires : Int

/-- The configuration cache, keyed by base domain. -/
abbrev ConfigCache := List (String × ConfigEntry)

/-- The environment of one structured evaluation: the secret and oracles
for `dns.resolveTxt`, `decrypt` and `JSON.parse`. -/
structure ConfigEnv where
  secret : Option String
  dnsResult : Except Unit (List (List String))
  decryptResult : String → String → Except Unit String
  jsonParse : String → Except Unit Json

/-- The outcome of `getFlagConfig`: the configuration value handed to the
caller, the cache afterwards, and whether `dns.resolveTxt` was invoked. -/
structure ConfigRun where
  config : Json
  cache : ConfigCache
  resolved : Bool

/-- The secret check of the structured variant:
`!secret || secret.length !== 64`, with `length` counted in UTF-16 code
units as JavaScript does (an empty secret has length 0 and is caught by
the same test). -/
def secretInvalid : Option String → Bool
  | none => true
  | some s => utf16Length s ≠ 64

/-- The cache-miss path of `getFlagConfig`: an absent or wrong-length
secret returns the empty configuration without touching the cache; a
resolution, empty-record, decryption or parse failure caches the empty
configuration with the failure TTL; success caches the parsed value with
the default TTL. -/
def configMissPath (env : ConfigEnv) (now : Int) (cache : ConfigCache)
    (baseDomain : String) : ConfigRun :=
  if secretInvalid env.secret then ⟨.obj [], cache, false⟩
  else
    match env.dnsResult with
    | .error _ =>
      ⟨.obj [], cacheSet cache baseDomain ⟨.obj [], now + FAILURE_CACHE_TTL_MS⟩, true⟩
    | .ok records =>
      let encryptedValue := String.join records.flatten
      if encryptedValue = "" then
        ⟨.obj [], cacheSet cache baseDomain ⟨.obj [], now + FAILURE_CACHE_TTL_MS⟩, true⟩
      else
        match env.decryptResult encryptedValue ((env.secret).getD "") with
        | .error _ =>
          ⟨.obj [], cacheSet cache baseDomain ⟨.obj [], now + FAILURE_CACHE_TTL_MS⟩, true⟩
        | .ok decryptedJson =>
          match env.jsonParse decryptedJson with
          | .error _ =>
            ⟨.obj [], cacheSet cache baseDomain ⟨.obj [], now + FAILURE_CACHE_TTL_MS⟩, true⟩
          | .ok config =>
            ⟨config, cacheSet cache baseDomain ⟨config, now + DEFAULT_CACHE_TTL_MS⟩, true⟩

/-- `getFlagConfig`: serve a non-expired cached configuration for the base
domain, otherwise run the miss path. -/
def getFlagConfig (env : ConfigEnv) (now : Int) (cache : ConfigCache)
    (baseDomain : String) : ConfigRun :=
  match cacheGet cache baseDomain with
  | some entry =>
    if now < entry.expires then ⟨entry.value, cache, false⟩
    else configMissPath env now cache baseDomain
  | none => configMissPath env now cache baseDomain

/-- The outcome of one structured `isFlagEnabled` call: the result — an
`.error` models an uncaught exception rejecting the returned promise —
plus the cache afterwards and whether resolution was invoked. -/
structure FlagRunS where
  result : Except Unit Bool
  cache : ConfigCache
  resolved : Bool

/-- `isFlagEnabled` of the structured variant: fetch (or reuse) the
configuration, look the flag up with the `|| 'off'` default, and evaluate
the rule. -/
def isFlagEnabled (env : ConfigEnv) (now : Int) (cache : ConfigCache)
    (featureName baseDomain : String) (userId : Option String) : FlagRunS :=
  let r := getFlagConfig env now cache baseDomain
  ⟨evalFlagRuleJson (lookupFlagRule r.config featureName) featureName userId,
   r.cache, r.resolved⟩

end Ripple

/-! ## Helper lemmas -/

/-- A well-formed 64-character hexadecimal secret for concrete runs. -/
def secretHex : String :=
  "0123456789abcdef0123456789abcdef0123456789abcdef0123456789abcdef"

/-- A stale per-flag entry (absent, or expiry at or before the clock)
makes the evaluation run the miss path. -/
theorem isFlagEnabled_stale (env : FlagEnv) (now : Int) (cache : FlagCache)
    (featureName baseDomain : String) (userId : Option String)
    (h : cacheGet cache (featureName ++ "." ++ baseDomain) = none ∨
      ∃ e, cacheGet cache (featureName ++ "." ++ baseDomain) = some e ∧
        e.expires ≤ now) :
    isFlagEnabled env now cache featureName baseDomain userId =
      flagMissPath env now cache (featureName ++ "." ++ baseDomain)
        featureName userId := by
  unfold isFlagEnabled
  rcases h with h | ⟨e, he, hexp⟩
  · simp only [h]
  · simp only [he]
    rw [if_neg (by omega : ¬ now < e.expires)]

/-- A stale configuration entry makes `getFlagConfig` run the miss path. -/
theorem getFlagConfig_stale (env : Ripple.ConfigEnv) (now : Int)
    (cache : Ripple.ConfigCache) (baseDomain : String)
    (h : cacheGet cache baseDomain = none ∨
      ∃ e, cacheGet cache baseDomain = some e ∧ e.expires ≤ now) :
    Ripple.getFlagConfig env now cache baseDomain =
      Ripple.configMissPath env now cache baseDomain := by
  unfold Ripple.getFlagConfig
  rcases h with h | ⟨e, he, hexp⟩
  · simp only [h]
  · simp only [he]
    rw [if_neg (by omega : ¬ now < e.expires)]

/-- Reading back the key just written. -/
theorem cacheGet_set {E : Type} (c : List (String × E)) (k : String) (v : E) :
    cacheGet (cacheSet c k v) k = some v := by
  simp [cacheGet, cacheSet, List.find?]

/-- The default rule `'off'` evaluates to `false` for every flag and
user. -/
theorem evalFlagRule_off (featureName : String) (userId : Option String) :
    evalFlagRule "off" featureName userId = false := rfl

/-- Looking a flag up in the fail-closed empty configuration: a name that
is not an inherited `Object.prototype` member defaults to `'off'` and
evaluates `false`; a colliding name (such as `constructor`) yields a
truthy inherited function on which `.startsWith` throws. -/
theorem evalFlagRuleJson_empty (featureName : String) (userId : Option String) :
    Ripple.evalFlagRuleJson
        (Ripple.lookupFlagRule (Ripple.Json.obj []) featureName)
        featureName userId =
      if featureName ∈ Ripple.objectProtoNames then .error ()
      else .ok false := by
  unfold Ripple.lookupFlagRule Ripple.jsMember
  by_cases h : featureName ∈ Ripple.objectProtoNames <;>
    simp [h, Ripple.evalFlagRuleJson, evalFlagRule_off]

/-- `readUInt32BE` only reads the first four bytes. -/
theorem readUInt32BE_take (l : List Nat) :
    readUInt32BE (l.take 4) = readUInt32BE l := by
  rcases l with _ | ⟨a, _ | ⟨b, _ | ⟨c, _ | ⟨d, rest⟩⟩⟩⟩ <;> rfl

/-- Splitting a list that does not contain the separator leaves it
whole. -/
theorem splitOnChar_no_sep (sep : Char) (cs : List Char) (h : sep ∉ cs) :
    splitOnChar sep cs = [cs] := by
  induction cs with
  | nil => rfl
  | cons c rest ih =>
    have hc : ¬ c = sep := fun hcs => h (hcs ▸ List.mem_cons_self c rest)
    have hr : splitOnChar sep rest = [rest] :=
      ih (fun hm => h (List.mem_cons_of_mem c hm))
    simp [splitOnChar, hc, hr]

/-- The percentage extraction on a `rollout=`-prefixed string whose suffix
contains no `=` is `parseInt` of the suffix. -/
theorem rolloutArg_concat (ds : List Char) (h : '=' ∉ ds) :
    rolloutArg ("rollout=" ++ String.mk ds) = parseIntJS (String.mk ds) := by
  have hd : ("rollout=" ++ String.mk ds).data = "rollout=".data ++ ds := rfl
  unfold rolloutArg
  rw [hd]
  have hs : splitOnChar '=' ds = [ds] := splitOnChar_no_sep '=' ds h
  simp [splitOnChar, hs]

/-- A digit is not `parseInt` whitespace. -/
theorem isDigitChar_not_space (c : Char) (h : isDigitChar c = true) :
    isJsSpace c = false := by
  simp only [isDigitChar, Bool.and_eq_true, decide_eq_true_eq] at h
  simp only [isJsSpace, Bool.or_eq_false_iff, decide_eq_false_iff_not]
  omega

/-- On a nonempty all-digit string, `parseInt` returns its numeric
value. -/
theorem parseIntJS_digits (ds : List Char) (h1 : ds ≠ [])
    (h2 : ∀ c ∈ ds, isDigitChar c = true) :
    parseIntJS (String.mk ds) = some (Int.ofNat (digitsToNat ds)) := by
  rcases ds with _ | ⟨c, rest⟩
  · exact absurd rfl h1
  have hc : isDigitChar c = true := h2 c (List.mem_cons_self c rest)
  have hsp : isJsSpace c = false := isDigitChar_not_space c hc
  have hdata : (String.mk (c :: rest)).data = c :: rest := rfl
  unfold parseIntJS
  rw [hdata, List.dropWhile_cons, hsp]
  simp only [Bool.false_eq_true, if_false]
  have hneg : ¬ c = '-' := by
    rintro rfl
    simp [isDigitChar] at hc
  have hpos : ¬ c = '+' := by
    rintro rfl
    simp [isDigitChar] at hc
  rw [if_neg hneg, if_neg hpos]
  have htake : (c :: rest).takeWhile isDigitChar = c :: rest :=
    List.takeWhile_eq_self_iff.mpr h2
  unfold leadingNat
  rw [htake]
  rfl

/-! ## Claim theorems -/

/-- C1: the claim says `isFlagEnabled` is total and fail-closed — it never
throws or propagates an error for any outcome of secret loading,
resolution, decryption and parsing. The structured orchestrator violates
this: when resolution, decryption and `JSON.parse` all succeed but the
parsed configuration maps the flag to a non-string value (here the number
5), the unguarded `flagRule.startsWith('rollout=')` call throws a
`TypeError` that nothing catches, so the returned promise rejects instead
of resolving `false`. -/
theorem c1_structured_mode_throws :
    (Ripple.isFlagEnabled
      ⟨some secretHex, .ok [["ciphertext"]],
       fun _ _ => .ok "\x7b\"new-header\": 5\x7d",
       fun _ => .ok (.obj [("new-header", .num 5)])⟩
      0 [] "new-header" "flags.example.com" none).result = .error () := rfl

/-- The bucket as the spec words it: the first 4 bytes of the SHA-256
digest of the concatenation, read as an unsigned big-endian integer,
reduced modulo 100, plus 1. -/
def bucketSpec (flagName userId : String) : Nat :=
  (readUInt32BE ((sha256 (utf8Bytes (flagName ++ userId))).take 4)) % 100 + 1

/-- C4: the bucket equals the first four bytes of the SHA-256 digest of
the flag-name/user-id concatenation read as an unsigned big-endian
integer, reduced modulo 100, plus 1; it is deterministic and always lies
in [1, 100]. -/
theorem c4_bucket_formula (flagName userId flagName' userId' : String) :
    _getUserRolloutValue flagName userId = bucketSpec flagName userId ∧
    (1 ≤ _getUserRolloutValue flagName userId ∧
      _getUserRolloutValue flagName userId ≤ 100) ∧
    (flagName = flagName' → userId = userId' →
      _getUserRolloutValue flagName userId =
        _getUserRolloutValue flagName' userId') := by
  refine ⟨?_, rolloutValue_range _ _, ?_⟩
  · unfold _getUserRolloutValue bucketSpec
    rw [readUInt32BE_take]
  · rintro rfl rfl
    rfl

/-- Witness for C4 at a concrete flag and user. -/
theorem c4_bucket_formula_witness :
    _getUserRolloutValue "new-header" "user-42" =
        bucketSpec "new-header" "user-42" ∧
    (1 ≤ _getUserRolloutValue "new-header" "user-42" ∧
      _getUserRolloutValue "new-header" "user-42" ≤ 100) ∧
    _getUserRolloutValue "new-header" "user-42" =
      _getUserRolloutValue "new-header" "user-42" :=
  ⟨(c4_bucket_formula "new-header" "user-42" "new-header" "user-42").1,
   (c4_bucket_formula "new-header" "user-42" "new-header" "user-42").2.1,
   (c4_bucket_formula "new-header" "user-42" "new-header" "user-42").2.2 rfl rfl⟩

/-- C7 counterexample: the claim says that on a cache miss a failed
secret load caches the fail-closed result with the failure TTL. In both
orchestrators an absent secret instead returns `false` (respectively the
empty configuration) with the cache left untouched — here the cache is
still empty afterwards, so nothing was stored. -/
theorem c7_counterexample :
    isFlagEnabled ⟨none, .error (), fun _ _ => .error ()⟩ 0 []
        "new-header" "flags.example.com" none =
      ⟨false, [], false⟩ ∧
    Ripple.isFlagEnabled ⟨none, .error (), fun _ _ => .error (), fun _ => .error ()⟩
        0 [] "new-header" "flags.example.com" none =
      ⟨.ok false, [], false⟩ :=
  ⟨rfl, rfl⟩

/-- C7 (amended): on a cache miss, a SecretKey that fails to load (falsy
in the per-flag orchestrator; absent or not 64 UTF-16 code units long in
the structured one) makes the evaluation bail out immediately with the
empty configuration, writing no cache entry and invoking no resolution;
the per-flag call returns `false`, and the structured call returns
`false` for every flag name that is not an inherited `Object.prototype`
member — at a colliding name such as `constructor` the unguarded rule
evaluation instead throws. The malformed key is treated as a
configuration error, never truncated or padded. -/
theorem c7_amended_no_caching :
    (∀ (env : FlagEnv) (now : Int) (cache : FlagCache)
        (featureName baseDomain : String) (userId : Option String),
      (cacheGet cache (featureName ++ "." ++ baseDomain) = none ∨
        ∃ e, cacheGet cache (featureName ++ "." ++ baseDomain) = some e ∧
          e.expires ≤ now) →
      jsFalsyStr env.secret = true →
      isFlagEnabled env now cache featureName baseDomain userId =
        ⟨false, cache, false⟩) ∧
    (∀ (env : Ripple.ConfigEnv) (now : Int) (cache : Ripple.ConfigCache)
        (featureName baseDomain : String) (userId : Option String),
      (cacheGet cache baseDomain = none ∨
        ∃ e, cacheGet cache baseDomain = some e ∧ e.expires ≤ now) →
      Ripple.secretInvalid env.secret = true →
      (Ripple.isFlagEnabled env now cache featureName baseDomain userId).cache =
        cache ∧
      (Ripple.isFlagEnabled env now cache featureName baseDomain
        userId).resolved = false ∧
      (featureName ∉ Ripple.objectProtoNames →
        (Ripple.isFlagEnabled env now cache featureName baseDomain
          userId).result = .ok false) ∧
      (featureName ∈ Ripple.objectProtoNames →
        (Ripple.isFlagEnabled env now cache featureName baseDomain
          userId).result = .error ())) := by
  constructor
  · intro env now cache featureName baseDomain userId h hsec
    rw [isFlagEnabled_stale env now cache featureName baseDomain userId h]
    unfold flagMissPath
    rw [if_pos hsec]
  · intro env now cache featureName baseDomain userId h hsec
    have hrun : Ripple.getFlagConfig env now cache baseDomain =
        ⟨.obj [], cache, false⟩ := by
      rw [getFlagConfig_stale env now cache baseDomain h]
      unfold Ripple.configMissPath
      rw [if_pos hsec]
    refine ⟨?_, ?_, ?_, ?_⟩
    · unfold Ripple.isFlagEnabled
      rw [hrun]
    · unfold Ripple.isFlagEnabled
      rw [hrun]
    · intro hname
      unfold Ripple.isFlagEnabled
      rw [hrun]
      show Ripple.evalFlagRuleJson
          (Ripple.lookupFlagRule (.obj []) featureName) featureName userId =
        .ok false
      rw [evalFlagRuleJson_empty, if_neg hname]
    · intro hname
      unfold Ripple.isFlagEnabled
      rw [hrun]
      show Ripple.evalFlagRuleJson
          (Ripple.lookupFlagRule (.obj []) featureName) featureName userId =
        .error ()
      rw [evalFlagRuleJson_empty, if_pos hname]

/-- Witness for C7 (amended) at concrete environments: an absent secret
(per-flag), and an 8-unit secret (structured) probed both at an ordinary
flag name and at the inherited name `constructor`. -/
theorem c7_amended_no_caching_witness :
    isFlagEnabled ⟨none, .ok [["x"]], fun _ _ => .ok "f=on"⟩ 0 []
        "f" "d" none = ⟨false, [], false⟩ ∧
    (Ripple.isFlagEnabled ⟨some "tooshort", .ok [["x"]], fun _ _ => .ok "\x7b\x7d",
        fun _ => .ok (.obj [])⟩ 0 [] "f" "d" none).cache = [] ∧
    (Ripple.isFlagEnabled ⟨some "tooshort", .ok [["x"]], fun _ _ => .ok "\x7b\x7d",
        fun _ => .ok (.obj [])⟩ 0 [] "f" "d" none).result = .ok false ∧
    (Ripple.isFlagEnabled ⟨some "tooshort", .ok [["x"]], fun _ _ => .ok "\x7b\x7d",
        fun _ => .ok (.obj [])⟩ 0 [] "constructor" "d" none).result =
      .error () :=
  ⟨c7_amended_no_caching.1 ⟨none, .ok [["x"]], fun _ _ => .ok "f=on"⟩ 0 []
      "f" "d" none (Or.inl rfl) rfl,
   (c7_amended_no_caching.2 ⟨some "tooshort", .ok [["x"]],
      fun _ _ => .ok "\x7b\x7d", fun _ => .ok (.obj [])⟩ 0 [] "f" "d" none
      (Or.inl rfl) (by decide)).1,
   (c7_amended_no_caching.2 ⟨some "tooshort", .ok [["x"]],
      fun _ _ => .ok "\x7b\x7d", fun _ => .ok (.obj [])⟩ 0 [] "f" "d" none
      (Or.inl rfl) (by decide)).2.2.1 (by decide),
   (c7_amended_no_caching.2 ⟨some "tooshort", .ok [["x"]],
      fun _ _ => .ok "\x7b\x7d", fun _ => .ok (.obj [])⟩ 0 [] "constructor" "d"
      none (Or.inl rfl) (by decide)).2.2.2 (by decide)⟩

/-- C8: the claim says structured-mode parsing rejects a decrypted
plaintext that is not a JSON object with string values as a `ParseError`.
The code has no such validation: a payload that parses to an object with
the numeric value 5 is accepted, cached with the success TTL and returned
as the configuration. -/
theorem c8_no_structural_validation :
    Ripple.getFlagConfig
      ⟨some secretHex, .ok [["ciphertext"]],
       fun _ _ => .ok "\x7b\"a\": 5\x7d",
       fun _ => .ok (.obj [("a", .num 5)])⟩
      0 [] "flags.example.com" =
    ⟨.obj [("a", .num 5)],
     [("flags.example.com", ⟨.obj [("a", .num 5)], 60000⟩)], true⟩ := rfl

/-- C9: the bucket depends only on the concatenation of flag name and
user identifier. -/
theorem c9_concat_collision (f1 u1 f2 u2 : String)
    (h : f1 ++ u1 = f2 ++ u2) :
    _getUserRolloutValue f1 u1 = _getUserRolloutValue f2 u2 := by
  unfold _getUserRolloutValue
  rw [h]

/-- Witness for C9 at the colliding pairs ("ab","c") and ("a","bc"). -/
theorem c9_concat_collision_witness :
    ("ab" ++ "c" = "a" ++ "bc") ∧
      _getUserRolloutValue "ab" "c" = _getUserRolloutValue "a" "bc" :=
  ⟨rfl, c9_concat_collision "ab" "c" "a" "bc" rfl⟩

/-- C10: the raw rule is extracted by replacing every `;` with `&` and
parsing the result as URL query syntax, so the rule handed to
interpretation is the URL-decoded form of the text after `name=`: `+`
becomes a space and `%XX` escapes are percent-decoded, so for some
payloads it differs from the literal characters. -/
theorem c10_urlencoded_extraction :
    (∀ decryptedFlags featureName : String,
      extractFlagRule decryptedFlags featureName =
        match urlSearchParamsGet
            (String.mk (decryptedFlags.data.map
              (fun c => if c = ';' then '&' else c)))
            featureName with
        | none => "off"
        | some v => if v = "" then "off" else v) ∧
    urlSearchParamsGet "f=on+x" "f" = some "on x" ∧
    extractFlagRule "f=%6Fn" "f" = "on" ∧
    (("%6Fn" == "on") : Bool) = false ∧
    extractFlagRule "a=1;f=rollout=25" "f" = "rollout=25" :=
  ⟨fun _ _ => rfl, by decide, by decide, by decide, by decide⟩

/-- C2: an entry whose expiry has passed (expiry at or before the clock)
is treated as absent: the evaluation runs exactly the miss path — the
resolve/decrypt/parse pipeline — instead of using the cached value, in
both orchestrators. -/
theorem c2_no_expired_reads :
    (∀ (env : FlagEnv) (now : Int) (cache : FlagCache)
        (featureName baseDomain : String) (userId : Option String)
        (e : FlagCacheEntry),
      cacheGet cache (featureName ++ "." ++ baseDomain) = some e →
      e.expires ≤ now →
      isFlagEnabled env now cache featureName baseDomain userId =
        flagMissPath env now cache (featureName ++ "." ++ baseDomain)
          featureName userId) ∧
    (∀ (env : Ripple.ConfigEnv) (now : Int) (cache : Ripple.ConfigCache)
        (baseDomain : String) (e : Ripple.ConfigEntry),
      cacheGet cache baseDomain = some e → e.expires ≤ now →
      Ripple.getFlagConfig env now cache baseDomain =
        Ripple.configMissPath env now cache baseDomain) :=
  ⟨fun env now cache featureName baseDomain userId e he hx =>
     isFlagEnabled_stale env now cache featureName baseDomain userId
       (Or.inr ⟨e, he, hx⟩),
   fun env now cache baseDomain e he hx =>
     getFlagConfig_stale env now cache baseDomain (Or.inr ⟨e, he, hx⟩)⟩

/-- Witness for C2: a concrete entry expiring exactly at the clock is
bypassed and the miss path runs. -/
theorem c2_no_expired_reads_witness :
    isFlagEnabled ⟨none, .error (), fun _ _ => .error ()⟩ 5
        [("f.d", ⟨"on", 5⟩)] "f" "d" none =
      flagMissPath ⟨none, .error (), fun _ _ => .error ()⟩ 5
        [("f.d", ⟨"on", 5⟩)] ("f" ++ "." ++ "d") "f" none ∧
    Ripple.getFlagConfig
        ⟨none, .error (), fun _ _ => .error (), fun _ => .error ()⟩ 5
        [("d", ⟨.obj [], 5⟩)] "d" =
      Ripple.configMissPath
        ⟨none, .error (), fun _ _ => .error (), fun _ => .error ()⟩ 5
        [("d", ⟨.obj [], 5⟩)] "d" :=
  ⟨c2_no_expired_reads.1 ⟨none, .error (), fun _ _ => .error ()⟩ 5
      [("f.d", ⟨"on", 5⟩)] "f" "d" none ⟨"on", 5⟩ rfl (by decide),
   c2_no_expired_reads.2 ⟨none, .error (), fun _ _ => .error (), fun _ => .error ()⟩ 5
      [("d", ⟨.obj [], 5⟩)] "d" ⟨.obj [], 5⟩ rfl (by decide)⟩

/-- A per-flag fetch that fails at resolution, at the empty-record check
or at decryption. -/
def flagFetchFails (env : FlagEnv) : Prop :=
  env.dnsResult = .error () ∨
  ∃ records, env.dnsResult = .ok records ∧
    (String.join records.flatten = "" ∨
     env.decryptResult (String.join records.flatten) ((env.secret).getD "") =
       .error ())

/-- A structured fetch that fails at resolution, at the empty-record
check, at decryption or at JSON parsing. -/
def rippleFetchFails (env : Ripple.ConfigEnv) : Prop :=
  env.dnsResult = .error () ∨
  ∃ records, env.dnsResult = .ok records ∧
    (String.join records.flatten = "" ∨
     env.decryptResult (String.join records.flatten) ((env.secret).getD "") =
       .error () ∨
     ∃ pt, env.decryptResult (String.join records.flatten)
         ((env.secret).getD "") = .ok pt ∧
       env.jsonParse pt = .error ())

/-- The per-flag miss path under any resolution/decryption failure (with
a non-falsy secret) caches `'off'` with the failure TTL and reports
`false`. -/
theorem flagMissPath_failure (env : FlagEnv) (now : Int) (cache : FlagCache)
    (domain featureName : String) (userId : Option String)
    (hsec : jsFalsyStr env.secret = false) (hfail : flagFetchFails env) :
    flagMissPath env now cache domain featureName userId =
      ⟨false, cacheSet cache domain ⟨"off", now + FAILURE_CACHE_TTL_MS⟩, true⟩ := by
  unfold flagMissPath
  rw [if_neg (by simp [hsec])]
  rcases hfail with hdns | ⟨records, hrec, hrest⟩
  · simp only [hdns]
  · by_cases hemp : String.join records.flatten = ""
    · simp only [hrec]
      rw [if_pos hemp]
    · simp only [hrec]
      rw [if_neg hemp]
      rcases hrest with hemp' | hdec
      · exact absurd hemp' hemp
      · simp only [hdec]

/-- The structured miss path under any resolution/decryption/parse
failure (with a valid secret) caches the empty configuration with the
failure TTL and reports it. -/
theorem configMissPath_failure (env : Ripple.ConfigEnv) (now : Int)
    (cache : Ripple.ConfigCache) (baseDomain : String)
    (hsec : Ripple.secretInvalid env.secret = false)
    (hfail : rippleFetchFails env) :
    Ripple.configMissPath env now cache baseDomain =
      ⟨.obj [], cacheSet cache baseDomain
        ⟨.obj [], now + Ripple.FAILURE_CACHE_TTL_MS⟩, true⟩ := by
  unfold Ripple.configMissPath
  rw [if_neg (by simp [hsec])]
  rcases hfail with hdns | ⟨records, hrec, hrest⟩
  · simp only [hdns]
  · by_cases hemp : String.join records.flatten = ""
    · simp only [hrec]
      rw [if_pos hemp]
    · simp only [hrec]
      rw [if_neg hemp]
      rcases hrest with hemp' | hdec | ⟨pt, hpt, hparse⟩
      · exact absurd hemp' hemp
      · simp only [hdec]
      · simp only [hpt, hparse]

/-- C6 counterexample: the claim says every subsequent evaluation within
the failure-TTL window returns `false`. In structured mode the failure
entry holds the empty object, and an evaluation at the flag name
`constructor` — an inherited `Object.prototype` member — finds a truthy
function on which the unguarded `.startsWith` call throws instead of
returning `false`: the first run below caches the fail-closed entry
after a resolution failure, and the follow-up run inside the TTL window
rejects with a `TypeError` (`.error`), its `resolved` flag confirming
the cached entry was served. -/
theorem c6_counterexample :
    (Ripple.isFlagEnabled
        ⟨some secretHex, .error (), fun _ _ => .error (), fun _ => .error ()⟩
        0 [] "constructor" "flags.example.com" none).cache =
      cacheSet [] "flags.example.com"
        ⟨.obj [], 0 + Ripple.FAILURE_CACHE_TTL_MS⟩ ∧
    Ripple.isFlagEnabled
        ⟨some secretHex, .ok [["x"]], fun _ _ => .ok "x",
         fun _ => .ok (.obj [])⟩
        9999
        (cacheSet [] "flags.example.com"
          ⟨.obj [], 0 + Ripple.FAILURE_CACHE_TTL_MS⟩)
        "constructor" "flags.example.com" none =
      ⟨.error (),
       cacheSet [] "flags.example.com"
         ⟨.obj [], 0 + Ripple.FAILURE_CACHE_TTL_MS⟩,
       false⟩ :=
  ⟨rfl, rfl⟩

/-- C6 (amended): every resolution/decryption/parse failure stores the
fail-closed result (`'off'` rule, respectively empty configuration) with
a TTL no greater than the success TTL, and every subsequent evaluation
before that entry expires serves the cache without invoking resolution
again and returns `false` — in structured mode for every flag name that
is not an inherited `Object.prototype` member (at a colliding name such
as `constructor` the unguarded rule evaluation throws instead, which is
also why the structured first-call result is conditioned the same
way). -/
theorem c6_failure_negative_caching :
    FAILURE_CACHE_TTL_MS ≤ DEFAULT_CACHE_TTL_MS ∧
    Ripple.FAILURE_CACHE_TTL_MS ≤ Ripple.DEFAULT_CACHE_TTL_MS ∧
    (∀ (env : FlagEnv) (now : Int) (cache : FlagCache)
        (featureName baseDomain : String) (userId : Option String),
      (cacheGet cache (featureName ++ "." ++ baseDomain) = none ∨
        ∃ e, cacheGet cache (featureName ++ "." ++ baseDomain) = some e ∧
          e.expires ≤ now) →
      jsFalsyStr env.secret = false →
      flagFetchFails env →
      (isFlagEnabled env now cache featureName baseDomain userId).result = false ∧
      (isFlagEnabled env now cache featureName baseDomain userId).cache =
        cacheSet cache (featureName ++ "." ++ baseDomain)
          ⟨"off", now + FAILURE_CACHE_TTL_MS⟩ ∧
      (∀ (env' : FlagEnv) (now' : Int) (userId' : Option String),
        now' < now + FAILURE_CACHE_TTL_MS →
        isFlagEnabled env' now'
            (cacheSet cache (featureName ++ "." ++ baseDomain)
              ⟨"off", now + FAILURE_CACHE_TTL_MS⟩)
            featureName baseDomain userId' =
          ⟨false,
           cacheSet cache (featureName ++ "." ++ baseDomain)
             ⟨"off", now + FAILURE_CACHE_TTL_MS⟩,
           false⟩)) ∧
    (∀ (env : Ripple.ConfigEnv) (now : Int) (cache : Ripple.ConfigCache)
        (featureName baseDomain : String) (userId : Option String),
      (cacheGet cache baseDomain = none ∨
        ∃ e, cacheGet cache baseDomain = some e ∧ e.expires ≤ now) →
      Ripple.secretInvalid env.secret = false →
      rippleFetchFails env →
      (Ripple.isFlagEnabled env now cache featureName baseDomain userId).cache =
        cacheSet cache baseDomain ⟨.obj [], now + Ripple.FAILURE_CACHE_TTL_MS⟩ ∧
      (featureName ∉ Ripple.objectProtoNames →
        (Ripple.isFlagEnabled env now cache featureName baseDomain
          userId).result = .ok false) ∧
      (∀ (env' : Ripple.ConfigEnv) (now' : Int) (featureName' : String)
          (userId' : Option String),
        now' < now + Ripple.FAILURE_CACHE_TTL_MS →
        (Ripple.isFlagEnabled env' now'
            (cacheSet cache baseDomain
              ⟨.obj [], now + Ripple.FAILURE_CACHE_TTL_MS⟩)
            featureName' baseDomain userId').cache =
          cacheSet cache baseDomain
            ⟨.obj [], now + Ripple.FAILURE_CACHE_TTL_MS⟩ ∧
        (Ripple.isFlagEnabled env' now'
            (cacheSet cache baseDomain
              ⟨.obj [], now + Ripple.FAILURE_CACHE_TTL_MS⟩)
            featureName' baseDomain userId').resolved = false ∧
        (featureName' ∉ Ripple.objectProtoNames →
          (Ripple.isFlagEnabled env' now'
              (cacheSet cache baseDomain
                ⟨.obj [], now + Ripple.FAILURE_CACHE_TTL_MS⟩)
              featureName' baseDomain userId').result = .ok false))) := by
  refine ⟨by decide, by decide, ?_, ?_⟩
  · intro env now cache featureName baseDomain userId hstale hsec hfail
    have hrun := isFlagEnabled_stale env now cache featureName baseDomain userId hstale
    have hmiss := flagMissPath_failure env now cache
      (featureName ++ "." ++ baseDomain) featureName userId hsec hfail
    refine ⟨by rw [hrun, hmiss], by rw [hrun, hmiss], ?_⟩
    intro env' now' userId' hlt
    unfold isFlagEnabled
    simp only [cacheGet_set]
    rw [if_pos hlt]
    rfl
  · intro env now cache featureName baseDomain userId hstale hsec hfail
    have hrun := getFlagConfig_stale env now cache baseDomain hstale
    have hmiss := configMissPath_failure env now cache baseDomain hsec hfail
    have hc : Ripple.getFlagConfig env now cache baseDomain =
        ⟨.obj [], cacheSet cache baseDomain
          ⟨.obj [], now + Ripple.FAILURE_CACHE_TTL_MS⟩, true⟩ :=
      hrun.trans hmiss
    refine ⟨?_, ?_, ?_⟩
    · unfold Ripple.isFlagEnabled
      rw [hc]
    · intro hname
      unfold Ripple.isFlagEnabled
      rw [hc]
      show Ripple.evalFlagRuleJson
          (Ripple.lookupFlagRule (.obj []) featureName) featureName userId =
        .ok false
      rw [evalFlagRuleJson_empty, if_neg hname]
    · intro env' now' featureName' userId' hlt
      refine ⟨?_, ?_, ?_⟩
      · unfold Ripple.isFlagEnabled Ripple.getFlagConfig
        simp only [cacheGet_set]
        rw [if_pos hlt]
      · unfold Ripple.isFlagEnabled Ripple.getFlagConfig
        simp only [cacheGet_set]
        rw [if_pos hlt]
      · intro hname
        unfold Ripple.isFlagEnabled Ripple.getFlagConfig
        simp only [cacheGet_set]
        rw [if_pos hlt]
        show Ripple.evalFlagRuleJson
            (Ripple.lookupFlagRule (.obj []) featureName') featureName' userId' =
          .ok false
        rw [evalFlagRuleJson_empty, if_neg hname]

/-- Witness for C6 (amended) at a concrete failing environment and empty
cache, with the follow-up calls one millisecond before the failure entry
expires. -/
theorem c6_failure_negative_caching_witness :
    (isFlagEnabled ⟨some "s", .error (), fun _ _ => .error ()⟩ 0 []
        "f" "d" none).result = false ∧
    (isFlagEnabled ⟨some "s", .error (), fun _ _ => .error ()⟩ 0 []
        "f" "d" none).cache =
      cacheSet [] ("f" ++ "." ++ "d") ⟨"off", 0 + FAILURE_CACHE_TTL_MS⟩ ∧
    isFlagEnabled ⟨some "s", .ok [["x"]], fun _ _ => .ok "f=on"⟩ 59999
        (cacheSet [] ("f" ++ "." ++ "d") ⟨"off", 0 + FAILURE_CACHE_TTL_MS⟩)
        "f" "d" none =
      ⟨false, cacheSet [] ("f" ++ "." ++ "d") ⟨"off", 0 + FAILURE_CACHE_TTL_MS⟩,
       false⟩ ∧
    (Ripple.isFlagEnabled ⟨some secretHex, .error (), fun _ _ => .error (),
        fun _ => .error ()⟩ 0 [] "f" "d" none).result = .ok false ∧
    (Ripple.isFlagEnabled ⟨some secretHex, .ok [["x"]], fun _ _ => .ok "\x7b\x7d",
        fun _ => .ok (.obj [("f", .str "on")])⟩ 9999
        (cacheSet [] "d" ⟨.obj [], 0 + Ripple.FAILURE_CACHE_TTL_MS⟩)
        "f" "d" none).cache =
      cacheSet [] "d" ⟨.obj [], 0 + Ripple.FAILURE_CACHE_TTL_MS⟩ ∧
    (Ripple.isFlagEnabled ⟨some secretHex, .ok [["x"]], fun _ _ => .ok "\x7b\x7d",
        fun _ => .ok (.obj [("f", .str "on")])⟩ 9999
        (cacheSet [] "d" ⟨.obj [], 0 + Ripple.FAILURE_CACHE_TTL_MS⟩)
        "f" "d" none).resolved = false ∧
    (Ripple.isFlagEnabled ⟨some secretHex, .ok [["x"]], fun _ _ => .ok "\x7b\x7d",
        fun _ => .ok (.obj [("f", .str "on")])⟩ 9999
        (cacheSet [] "d" ⟨.obj [], 0 + Ripple.FAILURE_CACHE_TTL_MS⟩)
        "f" "d" none).result = .ok false :=
  ⟨(c6_failure_negative_caching.2.2.1 ⟨some "s", .error (), fun _ _ => .error ()⟩
      0 [] "f" "d" none (Or.inl rfl) rfl (Or.inl rfl)).1,
   (c6_failure_negative_caching.2.2.1 ⟨some "s", .error (), fun _ _ => .error ()⟩
      0 [] "f" "d" none (Or.inl rfl) rfl (Or.inl rfl)).2.1,
   (c6_failure_negative_caching.2.2.1 ⟨some "s", .error (), fun _ _ => .error ()⟩
      0 [] "f" "d" none (Or.inl rfl) rfl (Or.inl rfl)).2.2
      ⟨some "s", .ok [["x"]], fun _ _ => .ok "f=on"⟩ 59999 none (by decide),
   (c6_failure_negative_caching.2.2.2 ⟨some secretHex, .error (),
      fun _ _ => .error (), fun _ => .error ()⟩
      0 [] "f" "d" none (Or.inl rfl) (by decide) (Or.inl rfl)).2.1 (by decide),
   ((c6_failure_negative_caching.2.2.2 ⟨some secretHex, .error (),
      fun _ _ => .error (), fun _ => .error ()⟩
      0 [] "f" "d" none (Or.inl rfl) (by decide) (Or.inl rfl)).2.2
      ⟨some secretHex, .ok [["x"]], fun _ _ => .ok "\x7b\x7d",
       fun _ => .ok (.obj [("f", .str "on")])⟩ 9999 "f" none (by decide)).1,
   ((c6_failure_negative_caching.2.2.2 ⟨some secretHex, .error (),
      fun _ _ => .error (), fun _ => .error ()⟩
      0 [] "f" "d" none (Or.inl rfl) (by decide) (Or.inl rfl)).2.2
      ⟨some secretHex, .ok [["x"]], fun _ _ => .ok "\x7b\x7d",
       fun _ => .ok (.obj [("f", .str "on")])⟩ 9999 "f" none (by decide)).2.1,
   ((c6_failure_negative_caching.2.2.2 ⟨some secretHex, .error (),
      fun _ _ => .error (), fun _ => .error ()⟩
      0 [] "f" "d" none (Or.inl rfl) (by decide) (Or.inl rfl)).2.2
      ⟨some secretHex, .ok [["x"]], fun _ _ => .ok "\x7b\x7d",
       fun _ => .ok (.obj [("f", .str "on")])⟩ 9999 "f" none (by decide)).2.2
      (by decide)⟩

/-- C3 counterexample: the claim says a `Rollout(p)` rule with `p < 100`
and a supplied user identifier returns `true` exactly when
`bucket ≤ p`. The empty string is a supplied identifier, yet JavaScript's
falsy check `!userId` treats it as absent: here `bucket("a","") = 11 ≤ 99`
but the evaluation returns `false`. -/
theorem c3_counterexample :
    ((_getUserRolloutValue "a" "" : Int) ≤ 99) ∧
      evalRule (Rule.Rollout 99) "a" (some "") = false :=
  ⟨by decide, rfl⟩

/-- C3 (amended): `On` evaluates `true`, `Off` evaluates `false`; a
`Rollout(p)` rule evaluates `true` when `p ≥ 100` for any user including
none; when `p < 100` it evaluates `false` if the user identifier is
absent or the (falsy) empty string, and otherwise evaluates `true`
exactly when `bucket(flagName, userIdentifier) ≤ p`. -/
theorem c3_amended_rollout_eval (p : Int) (featureName : String)
    (userId : Option String) :
    evalRule .On featureName userId = true ∧
    evalRule .Off featureName userId = false ∧
    (100 ≤ p → evalRule (.Rollout p) featureName userId = true) ∧
    (p < 100 → (userId = none ∨ userId = some "") →
      evalRule (.Rollout p) featureName userId = false) ∧
    (∀ u, p < 100 → userId = some u → u ≠ "" →
      (evalRule (.Rollout p) featureName userId = true ↔
        (_getUserRolloutValue featureName u : Int) ≤ p)) := by
  refine ⟨rfl, rfl, ?_, ?_, ?_⟩
  · intro h
    simp [evalRule, h]
  · rintro h (rfl | rfl) <;>
      simp [evalRule, show ¬ (100 : Int) ≤ p by omega]
  · rintro u h rfl hu
    simp [evalRule, show ¬ (100 : Int) ≤ p by omega, hu]

/-- Witness for C3 (amended) at concrete rules, flags and users. -/
theorem c3_amended_rollout_eval_witness :
    evalRule (Rule.Rollout 50) "a" none = false ∧
    (evalRule (Rule.Rollout 99) "a" (some "u") = true ↔
      (_getUserRolloutValue "a" "u" : Int) ≤ 99) :=
  ⟨(c3_amended_rollout_eval 50 "a" none).2.2.2.1 (by decide) (Or.inl rfl),
   (c3_amended_rollout_eval 99 "a" (some "u")).2.2.2.2 "u" (by decide) rfl
     (by decide)⟩

/-- C5: rule interpretation is total by construction; the exact string
`"on"` denotes `On`; a `rollout=` prefix whose percentage extraction
succeeds with any integer `n` — which covers plain digit suffixes,
negative ones such as `rollout=-5`, `parseInt`-numeric ones such as
`rollout=5x` and whitespace-led ones — denotes a rule that evaluates
exactly like `Rollout(clamp(n,0,100))` in every context (the code never
materializes the clamp, but its `≥ 100` shortcut and the bucket's
[1,100] range make the unclamped rule evaluate identically, including
clamping below 0); a nonempty all-digit suffix extracts exactly its
decimal value; a `rollout=` prefix whose extraction is `NaN` denotes
`Off`; and every other string — including the exact string `"off"` —
denotes `Off` (an absent key is defaulted to `"off"` by the orchestrator
before interpretation). -/
theorem c5_interpretation (raw : String) (ds : List Char) :
    interpret "on" = Rule.On ∧
    (∀ n : Int, strStartsWith raw "rollout=" = true → rolloutArg raw = some n →
      ruleEquiv (interpret raw) (Rule.Rollout (clampInt n 0 100))) ∧
    (ds ≠ [] → (∀ c ∈ ds, isDigitChar c = true) →
      rolloutArg ("rollout=" ++ String.mk ds) =
        some (Int.ofNat (digitsToNat ds))) ∧
    (strStartsWith raw "rollout=" = true → rolloutArg raw = none →
      interpret raw = Rule.Off) ∧
    (raw ≠ "on" → strStartsWith raw "rollout=" = false →
      interpret raw = Rule.Off) ∧
    interpret "off" = Rule.Off := by
  refine ⟨rfl, ?_, ?_, ?_, ?_, rfl⟩
  · intro n hsw harg
    have hne : raw ≠ "on" := by
      rintro rfl
      exact absurd hsw (by decide)
    have hi : interpret raw = Rule.Rollout n := by
      unfold interpret
      rw [if_neg hne, if_pos hsw, harg]
    rw [hi]
    exact evalRule_rollout_clamp n
  · intro h1 h2
    have hnd : '=' ∉ ds := by
      intro hm
      exact absurd (h2 _ hm) (by decide)
    rw [rolloutArg_concat ds hnd, parseIntJS_digits ds h1 h2]
  · intro hsw harg
    have hne : raw ≠ "on" := by
      rintro rfl
      exact absurd hsw (by decide)
    unfold interpret
    rw [if_neg hne, if_pos hsw, harg]
  · intro h1 h2
    unfold interpret
    rw [if_neg h1, if_neg (by simp [h2])]

/-- Witness for C5 at concrete raw rule strings, including the
out-of-range `rollout=150` and the negative `rollout=-5` whose clamp
floor matters. -/
theorem c5_interpretation_witness :
    interpret "on" = Rule.On ∧
    evalRule (interpret "rollout=150") "f" none =
      evalRule (Rule.Rollout (clampInt 150 0 100)) "f" none ∧
    evalRule (interpret "rollout=-5") "f" (some "u") =
      evalRule (Rule.Rollout (clampInt (-5) 0 100)) "f" (some "u") ∧
    rolloutArg ("rollout=" ++ String.mk ['1', '5', '0']) =
      some (Int.ofNat (digitsToNat ['1', '5', '0'])) ∧
    interpret "rollout=x" = Rule.Off ∧
    interpret "garbage" = Rule.Off ∧
    interpret "off" = Rule.Off :=
  ⟨(c5_interpretation "rollout=x" ['1', '5', '0']).1,
   (c5_interpretation "rollout=150" ['1', '5', '0']).2.1 150 (by decide)
     (by decide) "f" none,
   (c5_interpretation "rollout=-5" ['1', '5', '0']).2.1 (-5) (by decide)
     (by decide) "f" (some "u"),
   (c5_interpretation "rollout=x" ['1', '5', '0']).2.2.1 (by decide) (by decide),
   (c5_interpretation "rollout=x" ['1', '5', '0']).2.2.2.1 (by decide) (by decide),
   (c5_interpretation "garbage" []).2.2.2.2.1 (by decide) (by decide),
   (c5_interpretation "rollout=x" ['1', '5', '0']).2.2.2.2.2⟩
